import Mathlib

/-!
# Verification of the on-chain trading actor
  (motoko_contracts_backend/main.mo)

Shallow embedding of the actor's state and operations in Lean 4.

Modelling conventions:
* Motoko `Float` values are modelled as exact rationals (`ℚ`).  All the
  numeric literals of the source (`0.8`, `0.2`, `0.1`, `0.05`, `0.03`,
  `0.04`, `200.0/1000000.0`, `255.0`) are exactly representable, so the
  rational model follows the source expression for expression.
* A randomness blob is a list of bytes (`Fin 256`).  Operations that
  `await Random.blob()` take the drawn blob as an explicit parameter.
* `Time.now()` is an explicit `now : ℤ` parameter.
* Actor-global mutable variables are gathered in `ActorState`; every
  public method becomes a pure function from the pre-state (plus its
  environment inputs) to the post-state.
-/

abbrev Byte := Fin 256

abbrev Blob := List Byte

/-- The `Portfolio` record of the actor (main.mo, lines 68-78). -/
structure Portfolio where
  btc : ℚ
  eth : ℚ
  ckbtc : ℚ
  cketh : ℚ
  lastRebalanceTime : ℤ
  totalValue : ℚ
  performance : ℚ
  btcAddress : Option String
  ethAddress : Option String
deriving DecidableEq, Repr

/-- The `metrics` record of the actor (main.mo, lines 104-110). -/
structure Metrics where
  sharpeRatio : ℚ
  volatility : ℚ
  var95 : ℚ
  maxDrawdown : ℚ
  monteCarloSimulated : Bool
deriving DecidableEq, Repr

/-- All mutable actor variables (main.mo, lines 53, 86-113). -/
structure ActorState where
  portfolio : Portfolio
  latestBtcPrediction : ℚ
  latestEthPrediction : ℚ
  latestRebalanceResult : String
  metrics : Metrics
  metricsUpdated : Bool
  seed : Option Blob
deriving DecidableEq, Repr

/-- `NUM_SIMULATIONS` (line 56). -/
def NUM_SIMULATIONS : ℕ := 20

/-- `BTC_DAILY_VOLATILITY = 0.03` (line 59). -/
def BTC_DAILY_VOLATILITY : ℚ := 3 / 100

/-- `ETH_DAILY_VOLATILITY = 0.04` (line 60). -/
def ETH_DAILY_VOLATILITY : ℚ := 4 / 100

/-- `MAX_ALLOCATION = 0.8` (line 81). -/
def MAX_ALLOCATION : ℚ := 4 / 5

/-- `MIN_ALLOCATION = 0.2` (line 82). -/
def MIN_ALLOCATION : ℚ := 1 / 5

/-- `REBALANCE_THRESHOLD = 0.1` (line 83). -/
def REBALANCE_THRESHOLD : ℚ := 1 / 10

/-- The initial portfolio (lines 86-96). -/
def initialPortfolio : Portfolio :=
  { btc := 1000
    eth := 1000
    ckbtc := 0
    cketh := 0
    lastRebalanceTime := 0
    totalValue := 2000
    performance := 0
    btcAddress := none
    ethAddress := none }

/-- The initial metrics record (lines 104-110). -/
def initialMetrics : Metrics :=
  { sharpeRatio := 0, volatility := 0, var95 := 0, maxDrawdown := 0
    monteCarloSimulated := false }

/-- The actor's state right after initialization (lines 53, 99-113). -/
def initialState : ActorState :=
  { portfolio := initialPortfolio
    latestBtcPrediction := 0
    latestEthPrediction := 0
    latestRebalanceResult := ""
    metrics := initialMetrics
    metricsUpdated := false
    seed := none }

/-- `setPredictions(btcPred, ethPred)` (lines 215-218). -/
def setPredictions (s : ActorState) (btcPred ethPred : ℚ) : ActorState :=
  { s with latestBtcPrediction := btcPred, latestEthPrediction := ethPred }

/-- `update_ckbtc_balance(amount)` (lines 201-207). -/
def update_ckbtc_balance (s : ActorState) (amount : ℚ) : ActorState :=
  { s with portfolio :=
      { s.portfolio with
          ckbtc := amount
          totalValue := s.portfolio.btc + s.portfolio.eth + amount + s.portfolio.cketh } }

/-- `updateMetrics(sharpeRatio, volatility, var95, maxDrawdown)` (lines 245-259). -/
def updateMetrics (s : ActorState) (sharpeRatio volatility var95 maxDrawdown : ℚ) :
    ActorState :=
  { s with
      metrics :=
        { sharpeRatio := sharpeRatio, volatility := volatility, var95 := var95
          maxDrawdown := maxDrawdown, monteCarloSimulated := false }
      metricsUpdated := true }

/-- `getRandomness()` (lines 262-266): caches the drawn blob in `seed`. -/
def getRandomness (s : ActorState) (random : Blob) : ActorState :=
  { s with seed := some random }

/-- `getMetrics()` query result record (lines 226-242). -/
structure MetricsView where
  sharpeRatio : ℚ
  volatility : ℚ
  var95 : ℚ
  maxDrawdown : ℚ
  updated : Bool
  monteCarloSimulated : Bool
deriving DecidableEq, Repr

/-- `getMetrics()` (lines 226-242). -/
def getMetrics (s : ActorState) : MetricsView :=
  { sharpeRatio := s.metrics.sharpeRatio
    volatility := s.metrics.volatility
    var95 := s.metrics.var95
    maxDrawdown := s.metrics.maxDrawdown
    updated := s.metricsUpdated
    monteCarloSimulated := s.metrics.monteCarloSimulated }

/-- `calculateOptimalWeights()` (lines 425-439).  The source reads the
actor variables `latestBtcPrediction` / `latestEthPrediction`; here they
are passed as the two arguments. -/
def calculateOptimalWeights (predBtc predEth : ℚ) : ℚ × ℚ :=
  let btcWeight := predBtc / (predBtc + predEth)
  let ethWeight := 1 - btcWeight
  if btcWeight > MAX_ALLOCATION then
    (MAX_ALLOCATION, 1 - MAX_ALLOCATION)
  else if btcWeight < MIN_ALLOCATION then
    (MIN_ALLOCATION, 1 - MIN_ALLOCATION)
  else
    (btcWeight, ethWeight)

/-- `calculateOptimalWeightsWithRandomness()` (lines 442-469), with the
awaited random blob passed explicitly.  `bytes[0]` is `headD` (the IC
always returns a non-empty 32-byte blob; theorems assume `blob ≠ []`). -/
def calculateOptimalWeightsWithRandomness (predBtc predEth : ℚ) (random : Blob) :
    ℚ × ℚ :=
  let base := calculateOptimalWeights predBtc predEth
  let byteValue : ℕ := (random.headD 0).val
  let randomAdjustment := ((byteValue : ℚ) / 255) * (1 / 10) - 1 / 20
  let btcWeight := base.1 + randomAdjustment
  let ethWeight := 1 - btcWeight
  if btcWeight > MAX_ALLOCATION then
    (MAX_ALLOCATION, 1 - MAX_ALLOCATION)
  else if btcWeight < MIN_ALLOCATION then
    (MIN_ALLOCATION, 1 - MIN_ALLOCATION)
  else
    (btcWeight, ethWeight)

/-- Decimal rendering of a weight for the result strings.  The source
uses Motoko's `Float.toText`; no claim depends on the rendered digits of
the rebalanced-branch message, so the rendering function is the rational
`toString`. -/
def floatText (q : ℚ) : String := toString q

/-- `rebalance()` (lines 472-508), with `Time.now()` passed as `now`. -/
def rebalance (s : ActorState) (now : ℤ) : ActorState :=
  let totalValue := s.portfolio.btc + s.portfolio.eth
  let currentBtcWeight := s.portfolio.btc / totalValue
  let target := calculateOptimalWeights s.latestBtcPrediction s.latestEthPrediction
  if |currentBtcWeight - target.1| > REBALANCE_THRESHOLD then
    { s with
        portfolio :=
          { btc := totalValue * target.1
            eth := totalValue * target.2
            ckbtc := s.portfolio.ckbtc
            cketh := s.portfolio.cketh
            lastRebalanceTime := now
            totalValue := totalValue
            performance := (totalValue - 2000) / 2000
            btcAddress := s.portfolio.btcAddress
            ethAddress := s.portfolio.ethAddress }
        latestRebalanceResult :=
          "Portfolio rebalanced. New weights: BTC=" ++ floatText target.1 ++
            ", ETH=" ++ floatText target.2 }
  else
    { s with latestRebalanceResult :=
        "No rebalance needed. Current allocation within threshold." }

/-!
## Monte Carlo risk simulator (`runMonteCarloSimulation`, lines 287-390)

The statistics that stay inside exact rational arithmetic
(daily returns, their sum, the sorted distribution, the VaR index,
max drawdowns) are embedded exactly.  `Float.sqrt` has no exact rational
counterpart, so the two derived values that use it
(`simulatedVolatility`, `simulatedSharpeRatio`) enter the state
transition as explicit parameters.
-/

/-- `maxDays = if (days > 20) 20 else days` (line 294). -/
def mcMaxDays (days : ℕ) : ℕ := if days > 20 then 20 else days

/-- Byte lookup `bytes[k % bytes.size()]` used by the simulator
(lines 316-317); total via `getD`, the default is irrelevant whenever
`blob ≠ []` since then `k % blob.length < blob.length`. -/
def mcSeedByte (random : Blob) (k : ℕ) : ℕ :=
  (random.getD (k % random.length) 0).val

/-- `btcReturn` of path `i`, day `d` (lines 316, 319). -/
def mcBtcReturn (random : Blob) (maxDays i d : ℕ) : ℚ :=
  ((mcSeedByte random (i * maxDays + d) : ℚ) / 255 - 1 / 2) * 2 * BTC_DAILY_VOLATILITY

/-- `ethReturn` of path `i`, day `d` (lines 317, 320). -/
def mcEthReturn (random : Blob) (maxDays i d : ℕ) : ℚ :=
  ((mcSeedByte random (i * maxDays + d + 1) : ℚ) / 255 - 1 / 2) * 2 * ETH_DAILY_VOLATILITY

/-- `portfolioReturn` of path `i`, day `d` (lines 300-301, 323):
current portfolio weights, fixed for the whole horizon. -/
def mcPortfolioReturn (p : Portfolio) (random : Blob) (maxDays i d : ℕ) : ℚ :=
  (p.btc / p.totalValue) * mcBtcReturn random maxDays i d +
    (p.eth / p.totalValue) * mcEthReturn random maxDays i d

/-- The `dailyReturns` array (lines 296, 327).  The source writes
`dailyReturns[i * maxDays + d] := portfolioReturn` in a nested loop over
`i < NUM_SIMULATIONS`, `d < maxDays`; the written value depends only on
`(i, d)`, and index `k` corresponds to `i = k / maxDays`,
`d = k % maxDays`, so the filled array is this indexed map. -/
def mcDailyReturns (p : Portfolio) (random : Blob) (days : ℕ) : List ℚ :=
  let m := mcMaxDays days
  (List.range (NUM_SIMULATIONS * m)).map
    (fun k => mcPortfolioReturn p random m (k / m) (k % m))

/-- One day of a simulated path: updates
`(currentValue, peakValue, currentDrawdown)` (lines 314-338). -/
def mcPathStep (p : Portfolio) (random : Blob) (maxDays i : ℕ)
    (acc : ℚ × ℚ × ℚ) (d : ℕ) : ℚ × ℚ × ℚ :=
  let currentValue := acc.1
  let peakValue := acc.2.1
  let currentDrawdown := acc.2.2
  let portfolioReturn := mcPortfolioReturn p random maxDays i d
  let newValue := currentValue * (1 + portfolioReturn)
  let newPeak := if newValue > peakValue then newValue else peakValue
  let drawdown := (newPeak - newValue) / newPeak
  let newDrawdown := if drawdown > currentDrawdown then drawdown else currentDrawdown
  (newValue, newPeak, newDrawdown)

/-- Running one full path `i` (lines 309-343), starting from
`currentValue = peakValue = portfolio.totalValue`, `currentDrawdown = 0`. -/
def mcPathResult (p : Portfolio) (random : Blob) (maxDays i : ℕ) : ℚ × ℚ × ℚ :=
  (List.range maxDays).foldl (mcPathStep p random maxDays i)
    (p.totalValue, p.totalValue, 0)

/-- Number of simulated daily returns, `NUM_SIMULATIONS * maxDays`. -/
def mcCount (days : ℕ) : ℕ := NUM_SIMULATIONS * mcMaxDays days

/-- `sumReturns` (lines 346-353). -/
def mcSumReturns (p : Portfolio) (random : Blob) (days : ℕ) : ℚ :=
  (mcDailyReturns p random days).sum

/-- `avgReturn = sumReturns / count` (line 355); rational division by
zero yields `0` where the float source yields `NaN` (only at `days = 0`). -/
def mcAvgReturn (p : Portfolio) (random : Blob) (days : ℕ) : ℚ :=
  mcSumReturns p random days / (mcCount days : ℚ)

/-- `sortedReturns = Array.sort(dailyReturns, Float.compare)`
(line 360), ascending. -/
def mcSortedReturns (p : Portfolio) (random : Blob) (days : ℕ) : List ℚ :=
  (mcDailyReturns p random days).mergeSort (fun a b => decide (a ≤ b))

/-- `varIndex = Int.abs(Float.toInt(0.05 * count))` (line 361).
`0.05 * (20 * maxDays)` is exactly `maxDays` in rational arithmetic, and
the double-precision product also rounds to exactly `maxDays` (the
relative error `maxDays * 2 ^ (-54)` is below a half ulp), so truncation
and the rational floor agree. -/
def mcVarIndex (days : ℕ) : ℕ :=
  (⌊(1 / 20 : ℚ) * (mcCount days : ℚ)⌋).toNat

/-- `simulatedVar95 = sortedReturns[varIndex]` (line 362); `none` models
the Motoko out-of-bounds trap. -/
def mcVar95 (p : Portfolio) (random : Blob) (days : ℕ) : Option ℚ :=
  (mcSortedReturns p random days)[mcVarIndex days]?

/-- `simulatedMaxDrawdown`: the mean of the per-path max drawdowns
(lines 342, 365-369). -/
def mcSimulatedMaxDrawdown (p : Portfolio) (random : Blob) (days : ℕ) : ℚ :=
  ((List.range NUM_SIMULATIONS).map
      (fun i => (mcPathResult p random (mcMaxDays days) i).2.2)).sum /
    (NUM_SIMULATIONS : ℚ)

/-- State transition of `runMonteCarloSimulation(days)` (lines 304-305,
375-382): caches the freshly drawn blob and overwrites `metrics`.
`volatility` and `sharpeRatio` are computed with `Float.sqrt` in the
source and enter as the parameters `vol` / `shr`. -/
def runMonteCarloSimulation (s : ActorState) (days : ℕ) (random : Blob)
    (vol shr : ℚ) : ActorState :=
  { s with
      seed := some random
      metrics :=
        { sharpeRatio := shr
          volatility := vol
          var95 := (mcVar95 s.portfolio random days).getD 0
          maxDrawdown := mcSimulatedMaxDrawdown s.portfolio random days
          monteCarloSimulated := true }
      metricsUpdated := true }

/-- `updateMetricsWithRandomness(...)` (lines 393-422), with the awaited
blob explicit.  `Blob.toArray(random)[0..3]` is `getD`; theorems about
concrete byte values assume `4 ≤ random.length` implicitly by using
concrete blobs. -/
def updateMetricsWithRandomness (s : ActorState)
    (sharpeRatio volatility var95 maxDrawdown : ℚ) (random : Blob) : ActorState :=
  let byte1 : ℕ := (random.getD 0 0).val
  let byte2 : ℕ := (random.getD 1 0).val
  let byte3 : ℕ := (random.getD 2 0).val
  let byte4 : ℕ := (random.getD 3 0).val
  let randomFactor1 := (byte1 : ℚ) * 200 / 1000000
  let randomFactor2 := (byte2 : ℚ) * 200 / 1000000
  let randomFactor3 := (byte3 : ℚ) * 200 / 1000000
  let randomFactor4 := (byte4 : ℚ) * 200 / 1000000
  { s with
      seed := some random
      metrics :=
        { sharpeRatio := sharpeRatio * (1 + randomFactor1 - 1 / 10)
          volatility := volatility * (1 + randomFactor2 - 1 / 10)
          var95 := var95 * (1 + randomFactor3 - 1 / 10)
          maxDrawdown := maxDrawdown * (1 + randomFactor4 - 1 / 10)
          monteCarloSimulated := true }
      metricsUpdated := true }

/-- `rebalanceWithRandomness()` (lines 511-546).  `random` is the blob
drawn inside `calculateOptimalWeightsWithRandomness` (which caches it in
`seed`), `random2` the blob drawn by the trailing
`runMonteCarloSimulation(30)`, whose `Float.sqrt`-derived outputs are
`vol` / `shr`. -/
def rebalanceWithRandomness (s : ActorState) (now : ℤ) (random random2 : Blob)
    (vol shr : ℚ) : ActorState :=
  let totalValue := s.portfolio.btc + s.portfolio.eth
  let target :=
    calculateOptimalWeightsWithRandomness s.latestBtcPrediction
      s.latestEthPrediction random
  let s1 : ActorState :=
    { s with
        seed := some random
        portfolio :=
          { btc := totalValue * target.1
            eth := totalValue * target.2
            ckbtc := s.portfolio.ckbtc
            cketh := s.portfolio.cketh
            lastRebalanceTime := now
            totalValue := totalValue
            performance := (totalValue - 2000) / 2000
            btcAddress := s.portfolio.btcAddress
            ethAddress := s.portfolio.ethAddress }
        latestRebalanceResult :=
          "Portfolio rebalanced with randomness. New weights: BTC=" ++
            floatText target.1 ++ ", ETH=" ++ floatText target.2 }
  runMonteCarloSimulation s1 30 random2 vol shr

/-!
## Chain-key bridge (lines 29-47, 145-198)
-/

/-- `BitcoinNetwork` (line 64). -/
inductive BitcoinNetwork where
  | mainnet
  | testnet
  | regtest
deriving DecidableEq, Repr

/-- `BitcoinGetBalanceRequest` (lines 36-40). -/
structure BitcoinGetBalanceRequest where
  network : BitcoinNetwork
  address : String
  min_confirmations : ℕ
deriving DecidableEq, Repr

/-- Success continuation of `get_p2pkh_address(network)` (lines 161-164):
stores the externally returned address into the portfolio. -/
def get_p2pkh_address_store (s : ActorState) (result : String) : ActorState :=
  { s with portfolio := { s.portfolio with btcAddress := some result } }

/-- `get_bitcoin_balance(network, min_confirmations)` (lines 179-198) up
to its suspension point: either the immediate precondition rejection
(`btcAddress` still `null`) or the outbound request to the management
canister.  No actor variable is assigned on either path, so the state
component is the pre-state. -/
def get_bitcoin_balance (s : ActorState) (network : BitcoinNetwork)
    (min_confirmations : ℕ) : ActorState × Except String BitcoinGetBalanceRequest :=
  match s.portfolio.btcAddress with
  | none => (s, Except.error "No Bitcoin address generated yet")
  | some addr =>
      (s, Except.ok { network := network, address := addr
                      min_confirmations := min_confirmations })

/-!
## Reachability

One atomic step per state-mutating public method.  The two
`Float.sqrt`-derived metric fields of the simulator are universally
quantified in the corresponding steps, so the relation over-approximates
the reachable set; invariants proved over it hold a fortiori of the
actor.
-/

/-- One state-mutating call of the actor. -/
inductive Step : ActorState → ActorState → Prop where
  | predictions (s : ActorState) (btcPred ethPred : ℚ) :
      Step s (setPredictions s btcPred ethPred)
  | ckbtc (s : ActorState) (amount : ℚ) :
      Step s (update_ckbtc_balance s amount)
  | metricsSet (s : ActorState) (a b c d : ℚ) :
      Step s (updateMetrics s a b c d)
  | metricsRandom (s : ActorState) (a b c d : ℚ) (random : Blob) :
      Step s (updateMetricsWithRandomness s a b c d random)
  | randomness (s : ActorState) (random : Blob) :
      Step s (getRandomness s random)
  | monteCarlo (s : ActorState) (days : ℕ) (random : Blob) (vol shr : ℚ) :
      Step s (runMonteCarloSimulation s days random vol shr)
  | rebal (s : ActorState) (now : ℤ) :
      Step s (rebalance s now)
  | rebalRandom (s : ActorState) (now : ℤ) (random random2 : Blob) (vol shr : ℚ) :
      Step s (rebalanceWithRandomness s now random random2 vol shr)
  | address (s : ActorState) (result : String) :
      Step s (get_p2pkh_address_store s result)

/-- States reachable from actor initialization. -/
inductive Reachable : ActorState → Prop where
  | init : Reachable initialState
  | step {s s' : ActorState} : Reachable s → Step s s' → Reachable s'

/-!
## Helper lemmas
-/

/-- The clamp applied by both weight calculators (lines 430-436, 460-466)
as a single function. -/
def clampW (x : ℚ) : ℚ :=
  if x > MAX_ALLOCATION then MAX_ALLOCATION
  else if x < MIN_ALLOCATION then MIN_ALLOCATION
  else x

/-- Modelled from the spec: the nearest-rank, non-interpolated
percentile of a distribution — "the return at rank `ceil(0.05 * count)`
of the ascending-sorted list" — i.e. the element of 1-based rank
`⌈p * n⌉` (0-based index `⌈p * n⌉ - 1`) of the sorted list.  Used to
compare the spec's VaR description against `mcVar95`. -/
def nearestRankPercentile (l : List ℚ) (p : ℚ) : Option ℚ :=
  (l.mergeSort (fun a b => decide (a ≤ b)))[(⌈p * (l.length : ℚ)⌉).toNat - 1]?

/-- A concrete 32-byte randomness blob (bytes `0, 1, ..., 31`) used for
concrete instances; the IC's `Random.blob()` always returns 32 bytes. -/
def testBlob : Blob :=
  [0, 1, 2, 3, 4, 5, 6, 7, 8, 9, 10, 11, 12, 13, 14, 15, 16, 17, 18, 19, 20,
   21, 22, 23, 24, 25, 26, 27, 28, 29, 30, 31]

/-- The value of `mcDailyReturns initialPortfolio testBlob 1`, computed
explicitly: entry `k` is
`1/2 * ((k/255 - 1/2) * 0.06) + 1/2 * (((k+1)/255 - 1/2) * 0.08)
 = (-1777 + 14k) / 51000`. -/
def sampleReturns : List ℚ :=
  [-1777/51000, -1763/51000, -1749/51000, -1735/51000, -1721/51000, -1707/51000,
   -1693/51000, -1679/51000, -1665/51000, -1651/51000, -1637/51000, -1623/51000,
   -1609/51000, -1595/51000, -1581/51000, -1567/51000, -1553/51000, -1539/51000,
   -1525/51000, -1511/51000]

lemma clampW_le (x : ℚ) : clampW x ≤ MAX_ALLOCATION := by
  unfold clampW MAX_ALLOCATION MIN_ALLOCATION
  split_ifs with h1 h2
  · norm_num
  · norm_num
  · linarith

lemma le_clampW (x : ℚ) : MIN_ALLOCATION ≤ clampW x := by
  unfold clampW MAX_ALLOCATION MIN_ALLOCATION
  split_ifs with h1 h2
  · norm_num
  · norm_num
  · linarith

/-- The clamp-and-recompute if-chain shared by both weight calculators,
expressed through `clampW`. -/
lemma pair_clamp (x : ℚ) :
    (if x > MAX_ALLOCATION then (MAX_ALLOCATION, 1 - MAX_ALLOCATION)
      else if x < MIN_ALLOCATION then (MIN_ALLOCATION, 1 - MIN_ALLOCATION)
      else (x, 1 - x)) = (clampW x, 1 - clampW x) := by
  unfold clampW
  split_ifs <;> rfl

lemma calculateOptimalWeights_eq (predBtc predEth : ℚ) :
    calculateOptimalWeights predBtc predEth =
      (clampW (predBtc / (predBtc + predEth)),
        1 - clampW (predBtc / (predBtc + predEth))) := by
  simp only [calculateOptimalWeights]
  exact pair_clamp _

lemma calculateOptimalWeights_sum (predBtc predEth : ℚ) :
    (calculateOptimalWeights predBtc predEth).1 +
      (calculateOptimalWeights predBtc predEth).2 = 1 := by
  rw [calculateOptimalWeights_eq]; ring

lemma calculateOptimalWeightsWithRandomness_eq (predBtc predEth : ℚ) (random : Blob) :
    calculateOptimalWeightsWithRandomness predBtc predEth random =
      (clampW ((calculateOptimalWeights predBtc predEth).1 +
          (((random.headD 0).val : ℚ) / 255 * (1 / 10) - 1 / 20)),
        1 - clampW ((calculateOptimalWeights predBtc predEth).1 +
          (((random.headD 0).val : ℚ) / 255 * (1 / 10) - 1 / 20))) := by
  simp only [calculateOptimalWeightsWithRandomness]
  exact pair_clamp _

lemma calculateOptimalWeightsWithRandomness_sum (predBtc predEth : ℚ) (random : Blob) :
    (calculateOptimalWeightsWithRandomness predBtc predEth random).1 +
      (calculateOptimalWeightsWithRandomness predBtc predEth random).2 = 1 := by
  rw [calculateOptimalWeightsWithRandomness_eq]; ring

/-- The native holdings sum `btc + eth` is `2000` in every reachable
state: the initial state has `1000 + 1000`, both rebalancing operations
redistribute `btc + eth` along target weights summing to `1`, and no
other operation writes `btc` or `eth`. -/
lemma step_btc_add_eth {s s' : ActorState} (hstep : Step s s')
    (ih : s.portfolio.btc + s.portfolio.eth = 2000) :
    s'.portfolio.btc + s'.portfolio.eth = 2000 := by
  cases hstep with
  | predictions b e => simpa [setPredictions] using ih
  | ckbtc amount => simpa [update_ckbtc_balance] using ih
  | metricsSet a b c d => simpa [updateMetrics] using ih
  | metricsRandom a b c d random => simpa [updateMetricsWithRandomness] using ih
  | randomness random => simpa [getRandomness] using ih
  | monteCarlo days random vol shr => simpa [runMonteCarloSimulation] using ih
  | rebal now =>
    have hsum := calculateOptimalWeights_sum s.latestBtcPrediction s.latestEthPrediction
    simp only [rebalance]
    split_ifs with hcond
    · simp only
      nlinarith [ih, hsum]
    · simpa using ih
  | rebalRandom now random random2 vol shr =>
    have hsum := calculateOptimalWeightsWithRandomness_sum
      s.latestBtcPrediction s.latestEthPrediction random
    simp only [rebalanceWithRandomness, runMonteCarloSimulation]
    nlinarith [ih, hsum]
  | address result => simpa [get_p2pkh_address_store] using ih

lemma reachable_btc_add_eth {s : ActorState} (h : Reachable s) :
    s.portfolio.btc + s.portfolio.eth = 2000 := by
  induction h with
  | init => norm_num [initialState, initialPortfolio]
  | step _ hstep ih => exact step_btc_add_eth hstep ih

lemma mcMaxDays_eq_min (days : ℕ) : mcMaxDays days = min days 20 := by
  unfold mcMaxDays
  split_ifs <;> omega

lemma mcVarIndex_eq (days : ℕ) : mcVarIndex days = mcMaxDays days := by
  unfold mcVarIndex mcCount NUM_SIMULATIONS
  rw [show ((20 * mcMaxDays days : ℕ) : ℚ) = 20 * (mcMaxDays days : ℚ) by push_cast; ring,
    show (1 / 20 : ℚ) * (20 * (mcMaxDays days : ℚ)) = ((mcMaxDays days : ℕ) : ℚ) by ring,
    Int.floor_natCast, Int.toNat_natCast]

lemma sampleReturns_sorted : List.Sorted (fun a b : ℚ => a ≤ b) sampleReturns := by
  have hc : List.Chain' (fun a b : ℚ => a ≤ b) sampleReturns := by
    norm_num [sampleReturns, List.chain'_cons]
  exact List.chain'_iff_pairwise.mp hc

lemma mcDailyReturns_testBlob :
    mcDailyReturns initialPortfolio testBlob 1 = sampleReturns := by
  have hr : List.range 20 = [0, 1, 2, 3, 4, 5, 6, 7, 8, 9, 10, 11, 12, 13, 14,
      15, 16, 17, 18, 19] := rfl
  have hlen : List.length testBlob = 32 := rfl
  have hb : ∀ (k : ℕ) (h : k < List.length testBlob), (testBlob[k]).val = k := by
    decide
  simp only [mcDailyReturns, NUM_SIMULATIONS, mcMaxDays]
  norm_num [hr, hlen, mcPortfolioReturn, mcBtcReturn, mcEthReturn, mcSeedByte,
    BTC_DAILY_VOLATILITY, ETH_DAILY_VOLATILITY, initialPortfolio, sampleReturns, hb]

lemma mcSortedReturns_testBlob :
    mcSortedReturns initialPortfolio testBlob 1 = sampleReturns := by
  unfold mcSortedReturns
  rw [mcDailyReturns_testBlob]
  exact List.mergeSort_eq_self sampleReturns_sorted

/-!
## Claims
-/

/-- C2: for every pair of predictions with `predBtc + predEth ≠ 0`,
`calculateOptimalWeights` returns a pair summing to exactly `1` (in
particular within `1e-9` of `1.0`), with both components inside
`[MIN_ALLOCATION, MAX_ALLOCATION] = [0.2, 0.8]`. -/
theorem C2_optimalWeights_sum_band (predBtc predEth : ℚ)
    (h : predBtc + predEth ≠ 0) :
    (calculateOptimalWeights predBtc predEth).1 +
        (calculateOptimalWeights predBtc predEth).2 = 1 ∧
    |(calculateOptimalWeights predBtc predEth).1 +
        (calculateOptimalWeights predBtc predEth).2 - 1| ≤ 1 / 1000000000 ∧
    MIN_ALLOCATION ≤ (calculateOptimalWeights predBtc predEth).1 ∧
    (calculateOptimalWeights predBtc predEth).1 ≤ MAX_ALLOCATION ∧
    MIN_ALLOCATION ≤ (calculateOptimalWeights predBtc predEth).2 ∧
    (calculateOptimalWeights predBtc predEth).2 ≤ MAX_ALLOCATION := by
  rw [calculateOptimalWeights_eq]
  have h1 := le_clampW (predBtc / (predBtc + predEth))
  have h2 := clampW_le (predBtc / (predBtc + predEth))
  unfold MIN_ALLOCATION at h1
  unfold MAX_ALLOCATION at h2
  unfold MIN_ALLOCATION MAX_ALLOCATION
  refine ⟨by ring, ?_, by exact h1, by exact h2, by linarith, by linarith⟩
  have : clampW (predBtc / (predBtc + predEth)) +
      (1 - clampW (predBtc / (predBtc + predEth))) - 1 = 0 := by ring
  rw [this]
  norm_num

theorem C2_witness :
    ((150 : ℚ) + 100 ≠ 0) ∧
    ((calculateOptimalWeights 150 100).1 + (calculateOptimalWeights 150 100).2 = 1 ∧
      |(calculateOptimalWeights 150 100).1 + (calculateOptimalWeights 150 100).2 - 1| ≤
        1 / 1000000000 ∧
      MIN_ALLOCATION ≤ (calculateOptimalWeights 150 100).1 ∧
      (calculateOptimalWeights 150 100).1 ≤ MAX_ALLOCATION ∧
      MIN_ALLOCATION ≤ (calculateOptimalWeights 150 100).2 ∧
      (calculateOptimalWeights 150 100).2 ≤ MAX_ALLOCATION) :=
  ⟨by norm_num, C2_optimalWeights_sum_band 150 100 (by norm_num)⟩

/-- C8: whenever `portfolio.btcAddress` is still `null`,
`get_bitcoin_balance` rejects with the precondition message
"No Bitcoin address generated yet" before any outbound request is built,
leaving the actor state untouched. -/
theorem C8_balance_precondition (s : ActorState) (network : BitcoinNetwork)
    (min_confirmations : ℕ) (h : s.portfolio.btcAddress = none) :
    get_bitcoin_balance s network min_confirmations =
      (s, Except.error "No Bitcoin address generated yet") := by
  unfold get_bitcoin_balance
  rw [h]

theorem C8_witness :
    initialState.portfolio.btcAddress = none ∧
    get_bitcoin_balance initialState BitcoinNetwork.mainnet 0 =
      (initialState, Except.error "No Bitcoin address generated yet") :=
  ⟨rfl, C8_balance_precondition initialState BitcoinNetwork.mainnet 0 rfl⟩

/-- C10: every call of `updateMetricsWithRandomness` sets
`metrics.monteCarloSimulated` (and `metricsUpdated`) to `true`, even
though the stored values come from the external predictor, so
`getMetrics` afterwards reports `monteCarloSimulated = true`. -/
theorem C10_monteCarloSimulated_flag (s : ActorState) (a b c d : ℚ)
    (random : Blob) :
    (updateMetricsWithRandomness s a b c d random).metrics.monteCarloSimulated = true ∧
    (updateMetricsWithRandomness s a b c d random).metricsUpdated = true ∧
    (getMetrics (updateMetricsWithRandomness s a b c d random)).monteCarloSimulated = true :=
  ⟨rfl, rfl, rfl⟩

/-- C7: the claim says the per-field perturbation ranges over the full
interval `[-0.1, +0.1]`; the source comments (lines 403, 409) assert the
same intent ("±10%", factor "0-0.2"), but `byte * 200 / 1000000` only
ranges over `[0, 0.051]`, so the stored factor `1 + f - 0.1` ranges over
`[0.9, 0.951]` and never exceeds `1`: at the maximal byte `255` with
input `1` the stored value is `0.951`, not the claimed `1.1`. -/
theorem C7_perturbation_not_full_range :
    (updateMetricsWithRandomness initialState 1 1 1 1
        [255, 255, 255, 255]).metrics.sharpeRatio = 951 / 1000 ∧
    (951 / 1000 : ℚ) ≠ 1 * (1 + 1 / 10) ∧
    ∀ (s : ActorState) (a b c d : ℚ) (random : Blob),
      ∃ f : ℚ, 0 ≤ f ∧ f ≤ 51 / 1000 ∧
        (updateMetricsWithRandomness s a b c d random).metrics.sharpeRatio =
          a * (1 + (f - 1 / 10)) := by
  refine ⟨?_, by norm_num, ?_⟩
  · have h255 : (255 : Byte).val = 255 := rfl
    norm_num [updateMetricsWithRandomness, List.getD, h255]
  intro s a b c d random
  refine ⟨((random.getD 0 0).val : ℚ) * 200 / 1000000, by positivity, ?_, ?_⟩
  · have hv : ((random.getD 0 0).val : ℚ) ≤ 255 := by
      have := (random.getD 0 0).isLt
      exact_mod_cast Nat.le_of_lt_succ this
    linarith
  · simp only [updateMetricsWithRandomness]
    ring

/-- C3: `rebalance()` applies the new allocation
(`btc := totalValue * targetBtcWeight`, `eth := totalValue *
targetEthWeight`, new `lastRebalanceTime`) exactly when
`|currentBtcWeight - targetBtcWeight| > REBALANCE_THRESHOLD` holds with
strict inequality; otherwise (including a deviation of exactly `0.1`)
the portfolio record is left completely unchanged and the recorded
result is the "no rebalance needed" message. -/
theorem C3_threshold_strict (s : ActorState) (now : ℤ) :
    (|s.portfolio.btc / (s.portfolio.btc + s.portfolio.eth) -
          (calculateOptimalWeights s.latestBtcPrediction s.latestEthPrediction).1| >
        REBALANCE_THRESHOLD →
      (rebalance s now).portfolio =
        { btc := (s.portfolio.btc + s.portfolio.eth) *
              (calculateOptimalWeights s.latestBtcPrediction s.latestEthPrediction).1
          eth := (s.portfolio.btc + s.portfolio.eth) *
              (calculateOptimalWeights s.latestBtcPrediction s.latestEthPrediction).2
          ckbtc := s.portfolio.ckbtc
          cketh := s.portfolio.cketh
          lastRebalanceTime := now
          totalValue := s.portfolio.btc + s.portfolio.eth
          performance := (s.portfolio.btc + s.portfolio.eth - 2000) / 2000
          btcAddress := s.portfolio.btcAddress
          ethAddress := s.portfolio.ethAddress }) ∧
    (|s.portfolio.btc / (s.portfolio.btc + s.portfolio.eth) -
          (calculateOptimalWeights s.latestBtcPrediction s.latestEthPrediction).1| ≤
        REBALANCE_THRESHOLD →
      (rebalance s now).portfolio = s.portfolio ∧
      (rebalance s now).latestRebalanceResult =
        "No rebalance needed. Current allocation within threshold.") := by
  constructor
  · intro h
    simp only [rebalance]
    rw [if_pos h]
  · intro h
    simp only [rebalance]
    rw [if_neg (not_lt.mpr h)]
    exact ⟨rfl, rfl⟩

theorem C3_witness :
    (|(setPredictions initialState 150 100).portfolio.btc /
          ((setPredictions initialState 150 100).portfolio.btc +
            (setPredictions initialState 150 100).portfolio.eth) -
          (calculateOptimalWeights (setPredictions initialState 150 100).latestBtcPrediction
              (setPredictions initialState 150 100).latestEthPrediction).1| ≤
        REBALANCE_THRESHOLD) ∧
    ((rebalance (setPredictions initialState 150 100) 7).portfolio =
        (setPredictions initialState 150 100).portfolio ∧
      (rebalance (setPredictions initialState 150 100) 7).latestRebalanceResult =
        "No rebalance needed. Current allocation within threshold.") := by
  have hdev : |(setPredictions initialState 150 100).portfolio.btc /
      ((setPredictions initialState 150 100).portfolio.btc +
        (setPredictions initialState 150 100).portfolio.eth) -
      (calculateOptimalWeights (setPredictions initialState 150 100).latestBtcPrediction
          (setPredictions initialState 150 100).latestEthPrediction).1| ≤
      REBALANCE_THRESHOLD := by
    norm_num [setPredictions, initialState, initialPortfolio, calculateOptimalWeights,
      MAX_ALLOCATION, MIN_ALLOCATION, REBALANCE_THRESHOLD, abs_le]
  exact ⟨hdev, (C3_threshold_strict (setPredictions initialState 150 100) 7).2 hdev⟩

/-- C4: from every reachable state with a non-degenerate prediction
pair, `rebalanceWithRandomness()` perturbs the optimizer's weight by
`byte / 255 * 0.1 - 0.05 ∈ [-0.05, 0.05]` decoded from the first blob
byte, re-clamps into `[0.2, 0.8]`, recomputes the ETH weight as the
complement, always applies the resulting allocation with
`lastRebalanceTime := now` (no threshold check), and the realized
weights `btc/(btc+eth)` and `eth/(btc+eth)` land in `[0.2, 0.8]`. -/
theorem C4_rebalanceWithRandomness_always (s : ActorState) (hs : Reachable s)
    (hpred : s.latestBtcPrediction + s.latestEthPrediction ≠ 0)
    (now : ℤ) (random random2 : Blob) (hblob : random ≠ []) (vol shr : ℚ) :
    (-(1 / 20 : ℚ) ≤ ((random.headD 0).val : ℚ) / 255 * (1 / 10) - 1 / 20 ∧
      ((random.headD 0).val : ℚ) / 255 * (1 / 10) - 1 / 20 ≤ 1 / 20) ∧
    (rebalanceWithRandomness s now random random2 vol shr).portfolio.btc =
      (s.portfolio.btc + s.portfolio.eth) *
        clampW ((calculateOptimalWeights s.latestBtcPrediction s.latestEthPrediction).1 +
          (((random.headD 0).val : ℚ) / 255 * (1 / 10) - 1 / 20)) ∧
    (rebalanceWithRandomness s now random random2 vol shr).portfolio.eth =
      (s.portfolio.btc + s.portfolio.eth) *
        (1 - clampW ((calculateOptimalWeights s.latestBtcPrediction s.latestEthPrediction).1 +
          (((random.headD 0).val : ℚ) / 255 * (1 / 10) - 1 / 20))) ∧
    (rebalanceWithRandomness s now random random2 vol shr).portfolio.lastRebalanceTime = now ∧
    (MIN_ALLOCATION ≤
        (rebalanceWithRandomness s now random random2 vol shr).portfolio.btc /
          ((rebalanceWithRandomness s now random random2 vol shr).portfolio.btc +
            (rebalanceWithRandomness s now random random2 vol shr).portfolio.eth) ∧
      (rebalanceWithRandomness s now random random2 vol shr).portfolio.btc /
          ((rebalanceWithRandomness s now random random2 vol shr).portfolio.btc +
            (rebalanceWithRandomness s now random random2 vol shr).portfolio.eth) ≤
        MAX_ALLOCATION ∧
      MIN_ALLOCATION ≤
        (rebalanceWithRandomness s now random random2 vol shr).portfolio.eth /
          ((rebalanceWithRandomness s now random random2 vol shr).portfolio.btc +
            (rebalanceWithRandomness s now random random2 vol shr).portfolio.eth) ∧
      (rebalanceWithRandomness s now random random2 vol shr).portfolio.eth /
          ((rebalanceWithRandomness s now random random2 vol shr).portfolio.btc +
            (rebalanceWithRandomness s now random random2 vol shr).portfolio.eth) ≤
        MAX_ALLOCATION) := by
  have h2000 := reachable_btc_add_eth hs
  have heq := calculateOptimalWeightsWithRandomness_eq
    s.latestBtcPrediction s.latestEthPrediction random
  have hbyte0 : (0 : ℚ) ≤ ((random.headD 0).val : ℚ) := by positivity
  have hbyte255 : ((random.headD 0).val : ℚ) ≤ 255 := by
    have := (random.headD 0).isLt
    exact_mod_cast Nat.le_of_lt_succ this
  have hfrac0 : (0 : ℚ) ≤ ((random.headD 0).val : ℚ) / 255 := by positivity
  have hfrac1 : ((random.headD 0).val : ℚ) / 255 ≤ 1 := by
    rw [div_le_one (by norm_num)]
    exact hbyte255
  have hbtc : (rebalanceWithRandomness s now random random2 vol shr).portfolio.btc =
      (s.portfolio.btc + s.portfolio.eth) *
        clampW ((calculateOptimalWeights s.latestBtcPrediction s.latestEthPrediction).1 +
          (((random.headD 0).val : ℚ) / 255 * (1 / 10) - 1 / 20)) := by
    simp only [rebalanceWithRandomness, runMonteCarloSimulation, heq]
  have heth : (rebalanceWithRandomness s now random random2 vol shr).portfolio.eth =
      (s.portfolio.btc + s.portfolio.eth) *
        (1 - clampW ((calculateOptimalWeights s.latestBtcPrediction s.latestEthPrediction).1 +
          (((random.headD 0).val : ℚ) / 255 * (1 / 10) - 1 / 20))) := by
    simp only [rebalanceWithRandomness, runMonteCarloSimulation, heq]
  have htime : (rebalanceWithRandomness s now random random2 vol shr).portfolio.lastRebalanceTime
      = now := by
    simp only [rebalanceWithRandomness, runMonteCarloSimulation]
  have hwlo := le_clampW ((calculateOptimalWeights s.latestBtcPrediction s.latestEthPrediction).1 +
    (((random.headD 0).val : ℚ) / 255 * (1 / 10) - 1 / 20))
  have hwhi := clampW_le ((calculateOptimalWeights s.latestBtcPrediction s.latestEthPrediction).1 +
    (((random.headD 0).val : ℚ) / 255 * (1 / 10) - 1 / 20))
  have hsum : (rebalanceWithRandomness s now random random2 vol shr).portfolio.btc +
      (rebalanceWithRandomness s now random random2 vol shr).portfolio.eth = 2000 := by
    rw [hbtc, heth, h2000]; ring
  refine ⟨⟨by linarith, by linarith⟩, hbtc, heth, htime, ?_, ?_, ?_, ?_⟩
  · rw [hsum, hbtc, h2000]
    unfold MIN_ALLOCATION at hwlo ⊢
    linarith
  · rw [hsum, hbtc, h2000]
    unfold MAX_ALLOCATION at hwhi ⊢
    linarith
  · rw [hsum, heth, h2000]
    unfold MIN_ALLOCATION
    unfold MAX_ALLOCATION at hwhi
    linarith
  · rw [hsum, heth, h2000]
    unfold MAX_ALLOCATION
    unfold MIN_ALLOCATION at hwlo
    linarith

theorem C4_witness :
    Reachable (setPredictions initialState 150 100) ∧
    (setPredictions initialState 150 100).latestBtcPrediction +
        (setPredictions initialState 150 100).latestEthPrediction ≠ 0 ∧
    ([128] : Blob) ≠ [] ∧
    (rebalanceWithRandomness (setPredictions initialState 150 100) 7 [128] [] 0
        0).portfolio.lastRebalanceTime = 7 := by
  have hr : Reachable (setPredictions initialState 150 100) :=
    Reachable.step Reachable.init (Step.predictions initialState 150 100)
  have hp : (setPredictions initialState 150 100).latestBtcPrediction +
      (setPredictions initialState 150 100).latestEthPrediction ≠ 0 := by
    norm_num [setPredictions, initialState]
  have hb : ([128] : Blob) ≠ [] := by simp
  exact ⟨hr, hp, hb,
    (C4_rebalanceWithRandomness_always (setPredictions initialState 150 100) hr hp 7
        [128] [] hb 0 0).2.2.2.1⟩

/-- C1 (amended): `update_ckbtc_balance` re-establishes
`totalValue = btc + eth + ckbtc + cketh` from every pre-state, and the
two rebalancing operations preserve it from pre-states whose custodial
balances are zero; but `rebalance()`/`rebalanceWithRandomness()` store
`totalValue := btc + eth`, so from reachable pre-states with non-zero
`ckbtc` or `cketh` the four-term invariant is violated (see the
counterexample). -/
theorem C1_conservation_amended :
    (∀ (s : ActorState) (amount : ℚ),
        (update_ckbtc_balance s amount).portfolio.totalValue =
          (update_ckbtc_balance s amount).portfolio.btc +
            (update_ckbtc_balance s amount).portfolio.eth +
            (update_ckbtc_balance s amount).portfolio.ckbtc +
            (update_ckbtc_balance s amount).portfolio.cketh) ∧
    (∀ (s : ActorState) (now : ℤ),
        s.portfolio.ckbtc = 0 → s.portfolio.cketh = 0 →
        s.portfolio.totalValue =
          s.portfolio.btc + s.portfolio.eth + s.portfolio.ckbtc + s.portfolio.cketh →
        (rebalance s now).portfolio.totalValue =
          (rebalance s now).portfolio.btc + (rebalance s now).portfolio.eth +
            (rebalance s now).portfolio.ckbtc + (rebalance s now).portfolio.cketh) ∧
    (∀ (s : ActorState) (now : ℤ) (random random2 : Blob) (vol shr : ℚ),
        s.portfolio.ckbtc = 0 → s.portfolio.cketh = 0 →
        (rebalanceWithRandomness s now random random2 vol shr).portfolio.totalValue =
          (rebalanceWithRandomness s now random random2 vol shr).portfolio.btc +
            (rebalanceWithRandomness s now random random2 vol shr).portfolio.eth +
            (rebalanceWithRandomness s now random random2 vol shr).portfolio.ckbtc +
            (rebalanceWithRandomness s now random random2 vol shr).portfolio.cketh) := by
  refine ⟨?_, ?_, ?_⟩
  · intro s amount
    simp only [update_ckbtc_balance]
  · intro s now hck hcke hinv
    have hsum := calculateOptimalWeights_sum s.latestBtcPrediction s.latestEthPrediction
    simp only [rebalance]
    split_ifs with hcond
    · simp only
      rw [hck, hcke]
      linear_combination (-(s.portfolio.btc + s.portfolio.eth)) * hsum
    · simp only
      rw [hinv, hck, hcke]
  · intro s now random random2 vol shr hck hcke
    have hsum := calculateOptimalWeightsWithRandomness_sum
      s.latestBtcPrediction s.latestEthPrediction random
    simp only [rebalanceWithRandomness, runMonteCarloSimulation]
    rw [hck, hcke]
    linear_combination (-(s.portfolio.btc + s.portfolio.eth)) * hsum

theorem C1_counterexample :
    Reachable (update_ckbtc_balance (setPredictions initialState 300 100) 5) ∧
    ¬ ((rebalance (update_ckbtc_balance (setPredictions initialState 300 100) 5)
          7).portfolio.totalValue =
        (rebalance (update_ckbtc_balance (setPredictions initialState 300 100) 5)
            7).portfolio.btc +
          (rebalance (update_ckbtc_balance (setPredictions initialState 300 100) 5)
              7).portfolio.eth +
          (rebalance (update_ckbtc_balance (setPredictions initialState 300 100) 5)
              7).portfolio.ckbtc +
          (rebalance (update_ckbtc_balance (setPredictions initialState 300 100) 5)
              7).portfolio.cketh) := by
  constructor
  · exact Reachable.step
      (Reachable.step Reachable.init (Step.predictions initialState 300 100))
      (Step.ckbtc (setPredictions initialState 300 100) 5)
  · norm_num [rebalance, update_ckbtc_balance, setPredictions, initialState,
      initialPortfolio, calculateOptimalWeights, MAX_ALLOCATION, MIN_ALLOCATION,
      REBALANCE_THRESHOLD, abs_of_nonneg]

theorem C1_witness :
    ((update_ckbtc_balance initialState 5).portfolio.totalValue =
      (update_ckbtc_balance initialState 5).portfolio.btc +
        (update_ckbtc_balance initialState 5).portfolio.eth +
        (update_ckbtc_balance initialState 5).portfolio.ckbtc +
        (update_ckbtc_balance initialState 5).portfolio.cketh) ∧
    ((rebalance initialState 3).portfolio.totalValue =
      (rebalance initialState 3).portfolio.btc + (rebalance initialState 3).portfolio.eth +
        (rebalance initialState 3).portfolio.ckbtc +
        (rebalance initialState 3).portfolio.cketh) ∧
    ((rebalanceWithRandomness initialState 3 [7] [] 0 0).portfolio.totalValue =
      (rebalanceWithRandomness initialState 3 [7] [] 0 0).portfolio.btc +
        (rebalanceWithRandomness initialState 3 [7] [] 0 0).portfolio.eth +
        (rebalanceWithRandomness initialState 3 [7] [] 0 0).portfolio.ckbtc +
        (rebalanceWithRandomness initialState 3 [7] [] 0 0).portfolio.cketh) := by
  refine ⟨C1_conservation_amended.1 initialState 5,
    C1_conservation_amended.2.1 initialState 3 ?_ ?_ ?_,
    C1_conservation_amended.2.2 initialState 3 [7] [] 0 0 ?_ ?_⟩ <;>
    norm_num [initialState, initialPortfolio]

/-- C5: for `days ≥ 1` and a non-empty blob, each path simulates
`min(days, 20)` days, the flat `dailyReturns` array has
`NUM_SIMULATIONS * min(days, 20)` entries, and the entry of path `i`,
day `d` (index `i * maxDays + d`) equals
`wBtc * ((b1/255 - 0.5) * 2 * 0.03) + wEth * ((b2/255 - 0.5) * 2 * 0.04)`
with `b1`, `b2` the blob bytes at offsets `(i * maxDays + d) % len` and
`(i * maxDays + d + 1) % len`, and `wBtc = btc / totalValue`,
`wEth = eth / totalValue` the current portfolio weights. -/
theorem C5_mc_daily_return_formula (p : Portfolio) (random : Blob) (days : ℕ)
    (hdays : 1 ≤ days) (hblob : 0 < random.length) (i d : ℕ)
    (hi : i < NUM_SIMULATIONS) (hd : d < mcMaxDays days) :
    mcMaxDays days = min days 20 ∧
    (mcDailyReturns p random days).length = NUM_SIMULATIONS * min days 20 ∧
    (mcDailyReturns p random days)[i * mcMaxDays days + d]? =
      some (p.btc / p.totalValue *
          ((((random.getD ((i * mcMaxDays days + d) % random.length) 0).val : ℚ) / 255 -
            1 / 2) * 2 * (3 / 100)) +
        p.eth / p.totalValue *
          ((((random.getD ((i * mcMaxDays days + d + 1) % random.length) 0).val : ℚ) / 255 -
            1 / 2) * 2 * (4 / 100))) := by
  have hmpos : 0 < mcMaxDays days := by omega
  have hk : i * mcMaxDays days + d < NUM_SIMULATIONS * mcMaxDays days := by
    calc i * mcMaxDays days + d < i * mcMaxDays days + mcMaxDays days :=
          Nat.add_lt_add_left hd _
    _ = (i + 1) * mcMaxDays days := by ring
    _ ≤ NUM_SIMULATIONS * mcMaxDays days := Nat.mul_le_mul_right _ hi
  have hdiv : (i * mcMaxDays days + d) / mcMaxDays days = i := by
    rw [mul_comm i (mcMaxDays days), Nat.mul_add_div hmpos, Nat.div_eq_of_lt hd]
    omega
  have hmod : (i * mcMaxDays days + d) % mcMaxDays days = d := by
    rw [mul_comm i (mcMaxDays days), Nat.mul_add_mod, Nat.mod_eq_of_lt hd]
  refine ⟨mcMaxDays_eq_min days, ?_, ?_⟩
  · simp [mcDailyReturns, mcMaxDays_eq_min]
  · simp only [mcDailyReturns]
    rw [List.getElem?_map, List.getElem?_range hk]
    simp only [Option.map_some']
    rw [hdiv, hmod]
    rfl

theorem C5_witness :
    1 ≤ 1 ∧ 0 < testBlob.length ∧ 0 < NUM_SIMULATIONS ∧ 0 < mcMaxDays 1 ∧
    (mcDailyReturns initialPortfolio testBlob 1)[0 * mcMaxDays 1 + 0]? =
      some (initialPortfolio.btc / initialPortfolio.totalValue *
          ((((testBlob.getD ((0 * mcMaxDays 1 + 0) % testBlob.length) 0).val : ℚ) / 255 -
            1 / 2) * 2 * (3 / 100)) +
        initialPortfolio.eth / initialPortfolio.totalValue *
          ((((testBlob.getD ((0 * mcMaxDays 1 + 0 + 1) % testBlob.length) 0).val : ℚ) / 255 -
            1 / 2) * 2 * (4 / 100))) := by
  refine ⟨le_refl 1, by decide, by decide, by decide, ?_⟩
  exact (C5_mc_daily_return_formula initialPortfolio testBlob 1 (le_refl 1) (by decide)
    0 0 (by decide) (by decide)).2.2

/-- C6 (counterexample): at `days = 1` with the 32-byte blob
`0, 1, ..., 31` and the initial portfolio, the code returns
`sortedReturns[maxDays]` (0-based index `1`, value `-1763/51000`),
whereas the nearest-rank 5th percentile of the spec — 1-based rank
`⌈0.05 * 20⌉ = 1`, i.e. the smallest element — is `-1777/51000`. -/
theorem C6_counterexample :
    mcVar95 initialPortfolio testBlob 1 ≠
      nearestRankPercentile (mcDailyReturns initialPortfolio testBlob 1) (1 / 20) := by
  have h1 : mcVar95 initialPortfolio testBlob 1 = some (-1763 / 51000) := by
    unfold mcVar95
    rw [mcSortedReturns_testBlob, mcVarIndex_eq, show mcMaxDays 1 = 1 from rfl]
    norm_num [sampleReturns]
  have h2 : nearestRankPercentile (mcDailyReturns initialPortfolio testBlob 1) (1 / 20) =
      some (-1777 / 51000) := by
    unfold nearestRankPercentile
    rw [mcDailyReturns_testBlob, List.mergeSort_eq_self sampleReturns_sorted]
    norm_num [sampleReturns]
  rw [h1, h2]
  norm_num

/-- C6 (amended): for `days ≥ 1`, `var95` is the element of the
ascending-sorted daily-return distribution at 0-based index
`⌈0.05 * count⌉` — one position past the spec's 1-based nearest rank
`⌈0.05 * count⌉` — and that access is in bounds. -/
theorem C6_var95_rank (p : Portfolio) (random : Blob) (days : ℕ) (hd : 1 ≤ days) :
    mcVar95 p random days =
      (mcSortedReturns p random days)[(⌈(1 / 20 : ℚ) * ((mcCount days : ℕ) : ℚ)⌉).toNat]? ∧
    ∃ q : ℚ, mcVar95 p random days = some q := by
  have hm1 : 1 ≤ mcMaxDays days := by
    unfold mcMaxDays
    split_ifs <;> omega
  have hceil : (⌈(1 / 20 : ℚ) * ((mcCount days : ℕ) : ℚ)⌉).toNat = mcVarIndex days := by
    rw [mcVarIndex_eq]
    unfold mcCount NUM_SIMULATIONS
    rw [show ((20 * mcMaxDays days : ℕ) : ℚ) = 20 * (mcMaxDays days : ℚ) by push_cast; ring,
      show (1 / 20 : ℚ) * (20 * (mcMaxDays days : ℚ)) = ((mcMaxDays days : ℕ) : ℚ) by ring,
      Int.ceil_natCast, Int.toNat_natCast]
  constructor
  · unfold mcVar95
    rw [hceil]
  · have hlen : (mcSortedReturns p random days).length = mcCount days := by
      simp [mcSortedReturns, mcDailyReturns, List.length_mergeSort, mcCount]
    have hidx : mcVarIndex days < (mcSortedReturns p random days).length := by
      rw [hlen, mcVarIndex_eq]
      unfold mcCount NUM_SIMULATIONS
      omega
    exact ⟨_, List.getElem?_eq_getElem hidx⟩

theorem C6_witness :
    1 ≤ 1 ∧
    (mcVar95 initialPortfolio testBlob 1 =
        (mcSortedReturns initialPortfolio testBlob
          1)[(⌈(1 / 20 : ℚ) * ((mcCount 1 : ℕ) : ℚ)⌉).toNat]? ∧
      ∃ q : ℚ, mcVar95 initialPortfolio testBlob 1 = some q) :=
  ⟨le_refl 1, C6_var95_rank initialPortfolio testBlob 1 (le_refl 1)⟩

/-- C9: at `days = 0` the simulator's statistics phase is not total:
the daily-return array is empty, the divisor
`Float.fromInt(NUM_SIMULATIONS * maxDays)` of the mean/variance is `0`,
and `sortedReturns[varIndex]` is out of bounds (`none`); for
`days ≥ 1` the divisor is positive and the VaR index is in bounds. -/
theorem C9_days_zero_not_total :
    (∀ (p : Portfolio) (random : Blob),
        mcDailyReturns p random 0 = [] ∧
        ((mcCount 0 : ℕ) : ℚ) = 0 ∧
        mcVar95 p random 0 = none) ∧
    (∀ days : ℕ, 1 ≤ days → 0 < mcCount days ∧ mcVarIndex days < mcCount days) := by
  constructor
  · intro p random
    refine ⟨?_, ?_, ?_⟩
    · simp [mcDailyReturns, mcMaxDays]
    · simp [mcCount, mcMaxDays]
    · simp [mcVar95, mcSortedReturns, mcDailyReturns, mcMaxDays, NUM_SIMULATIONS]
  · intro days hd
    have hm1 : 1 ≤ mcMaxDays days := by
      unfold mcMaxDays
      split_ifs <;> omega
    rw [mcVarIndex_eq]
    unfold mcCount NUM_SIMULATIONS
    omega

theorem C9_witness :
    (mcDailyReturns initialPortfolio [] 0 = [] ∧ ((mcCount 0 : ℕ) : ℚ) = 0 ∧
      mcVar95 initialPortfolio [] 0 = none) ∧
    (1 ≤ 5 ∧ (0 < mcCount 5 ∧ mcVarIndex 5 < mcCount 5)) :=
  ⟨C9_days_zero_not_total.1 initialPortfolio [],
    by norm_num, C9_days_zero_not_total.2 5 (by norm_num)⟩
